import Mathlib

set_option maxRecDepth 8000

/-!
Verification development for the FakeLDAT firmware core (the protocol
variant): sensor sampling, edge detection, the adaptive brightness
threshold, the trigger-override state machine, and the 16-byte binary
command protocol.  Each C++ member function is embedded as a pure Lean
function over an explicit state record; machine-integer truncation is
made explicit with `% 2^w` where the C++ types force it.
-/

namespace FakeLDAT

/-- Report modes.  The C++ enum values are RAW = 0, SUMMARY = 1,
COMBINED = 2; `SET_REPORT_MODE` accepts any byte ≤ 3, so the stored mode
is kept as a raw numeral rather than an inductive. -/
def RAW : Nat := 0
def SUMMARY : Nat := 1
def COMBINED : Nat := 2

/-- The C++ `enum TriggerOverride`, values RELEASE, PRESS,
OVERRIDE_IN_PROGRESS, NOOVERRIDE. -/
inductive TriggerOverride where
  | RELEASE
  | PRESS
  | OVERRIDE_IN_PROGRESS
  | NOOVERRIDE
deriving DecidableEq, Repr

/-- Opcodes of `enum Command`. -/
def SET_POLL_RATE : Nat := 0x01
def GET_POLL_RATE : Nat := 0x21
def SET_REPORT_MODE : Nat := 0x02
def GET_REPORT_MODE : Nat := 0x22
def SET_THRESHOLD : Nat := 0x03
def GET_THRESHOLD : Nat := 0x23
def SET_ACTION : Nat := 0x04
def GET_ACTION : Nat := 0x24
def MANUAL_TRIGGER : Nat := 0x1F
def REPORT_RAW : Nat := 0x41
def REPORT_SUMMARY : Nat := 0x42

/-- The opcode allow-list `constexpr uint8_t allowed_commands[]`. -/
def allowed_commands : List Nat :=
  [SET_POLL_RATE, GET_POLL_RATE, SET_REPORT_MODE, GET_REPORT_MODE,
   SET_THRESHOLD, GET_THRESHOLD, SET_ACTION, GET_ACTION, MANUAL_TRIGGER]

/-- Guarded division: `none` exactly when the C++ expression `a / b`
would divide by zero (undefined behaviour). -/
def div? (a b : Nat) : Option Nat := if b = 0 then none else some (a / b)

/-- The two `bool` members of `class Button`. -/
structure ButtonState where
  last_state : Bool
  current_state : Bool
deriving DecidableEq, Repr

/-- The `Button` constructor sets `last_state = false` and leaves
`current_state` uninitialized; the indeterminate bit is taken as an
explicit argument. -/
def Button.init (c0 : Bool) : ButtonState :=
  { last_state := false, current_state := c0 }

/-- Embeds `Button::measure`: shift, then latch the active-low reading
(`digitalRead(pin) == LOW`), passed in as `readingLow`. -/
def Button.measure (b : ButtonState) (readingLow : Bool) : ButtonState :=
  { last_state := b.current_state, current_state := readingLow }

/-- Embeds `Button::get_state`. -/
def ButtonState.get_state (b : ButtonState) : Bool := b.current_state

/-- Embeds `Button::state_changed`. -/
def ButtonState.state_changed (b : ButtonState) : Bool :=
  b.last_state != b.current_state

/-- Embeds `Sensor::measure`, which stores
`analogRead(pin) ^ ((1 << ADC_RESOLUTION) - 1)`; the ADC is 12-bit, so the
mask is 4095. -/
def Sensor.measure (raw : Nat) : Nat := raw ^^^ 4095

def HISTORY_SIZE : Nat := 150

/-- The static locals of `FakeLDAT::calc_threshold`: the 150-slot
history array and the monotone write counter. -/
structure ThresholdState where
  history : List Nat
  count : Nat
deriving DecidableEq, Repr

/-- The `uint32_t sum` accumulated over the history array. -/
def histSum (l : List Nat) : Nat := l.sum % 4294967296

/-- Two's-complement reinterpretation of a 16-bit pattern as `int16_t`
(the assignment `int16_t threshold = <unsigned 16-bit value>`). -/
def toInt16 (n : Nat) : Int :=
  if n % 65536 < 32768 then (n % 65536 : Int) else (n % 65536 : Int) - 65536

/-- Low byte of an `int16_t`, i.e. `t & 0xFF` after integer promotion. -/
def int16Low (t : Int) : Nat := (t % 65536).toNat % 256

/-- High byte of an `int16_t`, i.e. `t >> 8 & 0xFF` after promotion. -/
def int16High (t : Int) : Nat := (t % 65536).toNat / 256 % 256

/-- The history mutation inside `FakeLDAT::calc_threshold`: overwrite
the slot `count % HISTORY_SIZE` and bump `count`. -/
def thrWrite (ts : ThresholdState) (current_value : Nat) : ThresholdState :=
  { history := ts.history.set (ts.count % HISTORY_SIZE) current_value,
    count := ts.count + 1 }

/-- Embeds `FakeLDAT::calc_threshold`: sum the whole history, then
overwrite the oldest slot, and return `sum / HISTORY_SIZE + threshold`
where the `int16_t` bias is added in `uint32_t` arithmetic and the
result truncates to `uint16_t`. -/
def calc_threshold (ts : ThresholdState) (bias : Int) (current_value : Nat) :
    ThresholdState × Nat :=
  (thrWrite ts current_value,
   ((((histSum ts.history / HISTORY_SIZE : Nat) : Int) + bias) % 65536).toNat)

inductive ActEv where
  | press
  | release
deriving DecidableEq, Repr

/-- The constant member `const bool trigger_on_press = true`. -/
def trigger_on_press : Bool := true

/-- The mutable members of `class FakeLDAT` (protocol variant), plus the
sensor's stored brightness, the button state and the static locals of
`calc_threshold`. -/
structure LDATState where
  button : ButtonState
  brightness : Nat
  timestamp : Nat
  interval_us : Nat
  trigger_high_timestamp : Nat
  trigger_override_count : Nat
  threshold : Int
  trigger_override : TriggerOverride
  mode : Nat
  action_mode : Nat
  action_button : Nat
  thr : ThresholdState
deriving DecidableEq, Repr

/-- Embeds `FakeLDAT::update_trigger_override`.  The `uint16_t`
decrement is written as `(c + 65535) % 65536`. -/
def update_trigger_override (s : LDATState) : LDATState :=
  let s1 :=
    if s.trigger_override = .PRESS then
      { s with trigger_override := .OVERRIDE_IN_PROGRESS }
    else if s.trigger_override = .RELEASE then
      { s with trigger_override := .NOOVERRIDE }
    else s
  if s1.trigger_override = .NOOVERRIDE then s1
  else if s1.trigger_override = .OVERRIDE_IN_PROGRESS ∧ s1.trigger_override_count = 0 then
    { s1 with trigger_override := .RELEASE }
  else
    { s1 with trigger_override_count := (s1.trigger_override_count + 65535) % 65536 }

/-- Embeds `FakeLDAT::update`.  Inputs: the raw ADC reading, the
active-low button level of this tick, and the monotonic clock value
`now`.  The returned list records the `action->press()` /
`action->release()` calls issued during the tick. -/
def update (s : LDATState) (raw : Nat) (btnLow : Bool) (now : Nat) :
    LDATState × List ActEv :=
  let s0 := { s with brightness := Sensor.measure raw, timestamp := now }
  let step : LDATState × List ActEv :=
    match s0.trigger_override with
    | .RELEASE =>
      (if trigger_on_press = false then
         { s0 with trigger_high_timestamp := s0.timestamp } else s0,
       [ActEv.release])
    | .PRESS =>
      (if trigger_on_press = true then
         { s0 with trigger_high_timestamp := s0.timestamp } else s0,
       [ActEv.press])
    | .NOOVERRIDE =>
      let b := Button.measure s0.button btnLow
      ({ s0 with button := b },
       if b.state_changed then
         if b.get_state = trigger_on_press then [ActEv.press] else [ActEv.release]
       else [])
    | .OVERRIDE_IN_PROGRESS => (s0, [])
  (update_trigger_override step.1, step.2)

/-- Embeds `FakeLDAT::manual_trigger`: `trigger_override = PRESS` and
`trigger_override_count = 50 * 1000 / interval_us` truncated to
`uint16_t`; `none` when `interval_us = 0`. -/
def manual_trigger (s : LDATState) : Option LDATState :=
  (div? (50 * 1000) s.interval_us).map fun c =>
    { s with trigger_override := .PRESS, trigger_override_count := c % 65536 }

/-- Embeds `FakeLDAT::set_rate`: `interval_us = 1000000 / rate`. -/
def set_rate (s : LDATState) (rate : Nat) : Option LDATState :=
  (div? 1000000 rate).map fun iv => { s with interval_us := iv }

/-- One 16-byte command frame, `uint8_t command[16]`. -/
structure Frame where
  b0 : Nat
  b1 : Nat
  b2 : Nat
  b3 : Nat
  b4 : Nat
  b5 : Nat
  b6 : Nat
  b7 : Nat
  b8 : Nat
  b9 : Nat
  b10 : Nat
  b11 : Nat
  b12 : Nat
  b13 : Nat
  b14 : Nat
  b15 : Nat
deriving DecidableEq, Repr

/-- Embeds `FakeLDAT::calc_checksum(buf, 15)`: the `uint8_t` running
sum of bytes 0..14. -/
def calc_checksum15 (f : Frame) : Nat :=
  (f.b0 + f.b1 + f.b2 + f.b3 + f.b4 + f.b5 + f.b6 + f.b7 + f.b8 + f.b9 +
   f.b10 + f.b11 + f.b12 + f.b13 + f.b14) % 256

/-- Embeds `FakeLDAT::valid_checksum(buf, 16)`. -/
def valid_checksum (f : Frame) : Bool := f.b15 == calc_checksum15 f

/-- The `switch (command[0])` body of `FakeLDAT::check_for_commands` for
one accepted frame: returns the mutated state and the frame as the
handlers leave it (before the final checksum write), or `none` when a
division by zero is reached.  The little-endian u16 at bytes 1-2 is
`b2 * 256 + b1` (`command[2] << 8 | command[1]` on byte values). -/
def dispatch (s : LDATState) (f : Frame) : Option (LDATState × Frame) :=
  if f.b0 = SET_POLL_RATE then
    match div? 1000000 (f.b2 * 256 + f.b1) with
    | none => none
    | some iv =>
      match div? 1000000 iv with
      | none => none
      | some rate =>
        some ({ s with interval_us := iv },
              { f with b1 := rate % 256, b2 := rate / 256 % 256 })
  else if f.b0 = GET_POLL_RATE then
    match div? 1000000 s.interval_us with
    | none => none
    | some rate =>
      some (s, { f with b1 := rate % 256, b2 := rate / 256 % 256 })
  else if f.b0 = SET_REPORT_MODE then
    if f.b1 > 3 then some (s, f)
    else
      let s' := { s with mode := f.b1 }
      some (s', { f with b1 := s'.mode })
  else if f.b0 = GET_REPORT_MODE then
    some (s, { f with b1 := s.mode })
  else if f.b0 = SET_THRESHOLD then
    let s' := { s with threshold := toInt16 (f.b2 * 256 + f.b1) }
    some (s', { f with b1 := int16Low s'.threshold, b2 := int16High s'.threshold })
  else if f.b0 = GET_THRESHOLD then
    some (s, { f with b1 := int16Low s.threshold, b2 := int16High s.threshold })
  else if f.b0 = SET_ACTION then
    if f.b1 > 2 then some (s, f)
    else
      let s' := { s with action_mode := f.b1, action_button := f.b2 }
      some (s', { f with b1 := s'.action_mode, b2 := s'.action_button })
  else if f.b0 = GET_ACTION then
    some (s, { f with b1 := s.action_mode, b2 := s.action_button })
  else if f.b0 = MANUAL_TRIGGER then
    match manual_trigger s with
    | none => none
    | some s' => some (s', f)
  else
    some (s, f)

/-- One iteration of the `while` loop of `FakeLDAT::check_for_commands`
for a single buffered frame: drop it silently when the opcode is not
allowed or the checksum fails; otherwise dispatch, recompute byte 15 as
the checksum over bytes 0..14, and write the frame back.  `none` marks a
division by zero inside the handlers. -/
def processFrame (s : LDATState) (f : Frame) : Option (LDATState × Option Frame) :=
  if f.b0 ∈ allowed_commands ∧ valid_checksum f = true then
    (dispatch s f).map fun p => (p.1, some { p.2 with b15 := calc_checksum15 p.2 })
  else
    some (s, none)

/-- The full drain loop of `FakeLDAT::check_for_commands` over the
frames buffered at tick start, collecting the responses written back. -/
def check_for_commands (s : LDATState) : List Frame → Option (LDATState × List Frame)
  | [] => some (s, [])
  | f :: rest =>
    (processFrame s f).bind fun p =>
      (check_for_commands p.1 rest).map fun q =>
        (q.1, p.2.toList ++ q.2)

/-- Payload of a `REPORT_SUMMARY` frame: the measured latency and the
threshold used. -/
structure SummaryReport where
  latency : Nat
  threshold_used : Nat
deriving DecidableEq, Repr

/-- Embeds `FakeLDAT::report_summary`. -/
def report_summary (s : LDATState) : LDATState × Option SummaryReport :=
  let p := calc_threshold s.thr s.threshold s.brightness
  let s1 := { s with thr := p.1 }
  if s1.trigger_override = .NOOVERRIDE ∧ s1.button.state_changed = true ∧
      s1.button.get_state = trigger_on_press then
    ({ s1 with trigger_high_timestamp := s1.timestamp }, none)
  else if s1.trigger_high_timestamp ≠ 0 ∧ s1.brightness > p.2 then
    ({ s1 with trigger_high_timestamp := 0 },
     some { latency := s1.timestamp - s1.trigger_high_timestamp, threshold_used := p.2 })
  else
    (s1, none)

/-- The `FakeLDAT` constructor (protocol variant): fresh button and
sensor, `Action(action_mode)` (MOUSE_LEFT = 1, `'x'` = 120),
`set_rate(rate)`, `mode = report_mode`.  `c0` is the button's
uninitialized `current_state`; `t0` the initial clock reading. -/
def mkLDAT (rate : Nat) (report_mode : Nat) (action_mode : Nat)
    (c0 : Bool) (t0 : Nat) : Option LDATState :=
  (div? 1000000 rate).map fun iv =>
    { button := Button.init c0
      brightness := 0
      timestamp := t0
      interval_us := iv
      trigger_high_timestamp := 0
      trigger_override_count := 0
      threshold := 150
      trigger_override := .NOOVERRIDE
      mode := report_mode
      action_mode := action_mode
      action_button := if action_mode = 0 then 1 else 120
      thr := { history := List.replicate HISTORY_SIZE 0, count := 0 } }

/-- Repeated `FakeLDAT::update` ticks: for each tick input the trace
records the override state seen at the top of the tick together with
the Action calls issued during it, and the final state is returned. -/
def tickTrace : LDATState → List (Nat × Bool × Nat) →
    List (TriggerOverride × List ActEv) × LDATState
  | s, [] => ([], s)
  | s, i :: rest =>
    let p := update s i.1 i.2.1 i.2.2
    let q := tickTrace p.1 rest
    ((s.trigger_override, p.2) :: q.1, q.2)

/-- The history mutation of `n` consecutive `calc_threshold` calls all
fed the same sample `v`. -/
def feedConst (ts : ThresholdState) (v : Nat) : Nat → ThresholdState
  | 0 => ts
  | n+1 => thrWrite (feedConst ts v n) v

/-- The device state built by `setup()` in the protocol variant:
`new FakeLDAT(button_pin, sensor_pin, offset_pin, 2000, RAW, MOUSE)`,
with the button's uninitialized bit taken as false and the clock at 0. -/
def exState : LDATState :=
  { button := Button.init false
    brightness := 0
    timestamp := 0
    interval_us := 500
    trigger_high_timestamp := 0
    trigger_override_count := 0
    threshold := 150
    trigger_override := .NOOVERRIDE
    mode := RAW
    action_mode := 0
    action_button := 1
    thr := { history := List.replicate HISTORY_SIZE 0, count := 0 } }

/-- A SET_REPORT_MODE frame with byte 1 = 4 (out of range) and a valid
checksum. -/
def frameMode4 : Frame := ⟨2, 4, 0, 0, 0, 0, 0, 0, 0, 0, 0, 0, 0, 0, 0, 6⟩

/-- A SET_REPORT_MODE frame with byte 1 = 2 (COMBINED) and a valid
checksum. -/
def frameMode2 : Frame := ⟨2, 2, 0, 0, 0, 0, 0, 0, 0, 0, 0, 0, 0, 0, 0, 4⟩

/-- A SET_POLL_RATE frame requesting rate 1500 (bytes 1-2 little
endian: 220, 5) with a valid checksum. -/
def frameRate1500 : Frame := ⟨1, 220, 5, 0, 0, 0, 0, 0, 0, 0, 0, 0, 0, 0, 0, 226⟩

/-- A SET_POLL_RATE frame requesting rate 1000 (bytes 1-2 little
endian: 232, 3) with a valid checksum. -/
def frameRate1000 : Frame := ⟨1, 232, 3, 0, 0, 0, 0, 0, 0, 0, 0, 0, 0, 0, 0, 236⟩

/-- A SET_POLL_RATE frame whose rate bytes are both zero, with a valid
checksum. -/
def frameRate0 : Frame := ⟨1, 0, 0, 0, 0, 0, 0, 0, 0, 0, 0, 0, 0, 0, 0, 1⟩

/-- A frame with opcode 0x05, which is not in the allow-list (its
checksum is valid). -/
def frameBadOpcode : Frame := ⟨5, 0, 0, 0, 0, 0, 0, 0, 0, 0, 0, 0, 0, 0, 0, 5⟩

/-- A MANUAL_TRIGGER frame with nonzero payload bytes and a valid
checksum (0x1F + 7 + 9 = 47). -/
def frameManual : Frame := ⟨0x1F, 7, 9, 0, 0, 0, 0, 0, 0, 0, 0, 0, 0, 0, 0, 47⟩

/-- A state in mid-override with a pending trigger timestamp, used to
exercise the summary-report branch. -/
def exStateSummary : LDATState :=
  { exState with trigger_high_timestamp := 5, timestamp := 1000,
                 brightness := 200,
                 trigger_override := TriggerOverride.OVERRIDE_IN_PROGRESS }

/-- Every successful dispatch leaves byte 0 untouched, and the
MANUAL_TRIGGER handler leaves the whole frame untouched. -/
theorem dispatch_some_frame {s s' : LDATState} {f g : Frame}
    (h : dispatch s f = some (s', g)) :
    g.b0 = f.b0 ∧ (f.b0 = MANUAL_TRIGGER → g = f) := by
  dsimp only [dispatch] at h
  repeat' split at h
  all_goals cases h
  all_goals
    refine ⟨rfl, fun hm => ?_⟩
    first
      | rfl
      | (exfalso
         simp only [SET_POLL_RATE, GET_POLL_RATE, SET_REPORT_MODE,
           GET_REPORT_MODE, SET_THRESHOLD, GET_THRESHOLD, SET_ACTION,
           GET_ACTION, MANUAL_TRIGGER] at *
         omega)

/-- Closed form of `processFrame` on an accepted SET_POLL_RATE frame
with a nonzero requested rate. -/
theorem processFrame_set_poll_rate (s : LDATState) (f : Frame)
    (hacc : f.b0 ∈ allowed_commands ∧ valid_checksum f = true)
    (h0 : f.b0 = SET_POLL_RATE) (hb1 : f.b1 < 256) (hb2 : f.b2 < 256)
    (hr : f.b2 * 256 + f.b1 ≠ 0) :
    processFrame s f =
      some ({ s with interval_us := 1000000 / (f.b2 * 256 + f.b1) },
        some { f with
          b1 := 1000000 / (1000000 / (f.b2 * 256 + f.b1)) % 256
          b2 := 1000000 / (1000000 / (f.b2 * 256 + f.b1)) / 256 % 256
          b15 := calc_checksum15 { f with
            b1 := 1000000 / (1000000 / (f.b2 * 256 + f.b1)) % 256
            b2 := 1000000 / (1000000 / (f.b2 * 256 + f.b1)) / 256 % 256 } }) := by
  have hd1 : div? 1000000 (f.b2 * 256 + f.b1) =
      some (1000000 / (f.b2 * 256 + f.b1)) := by
    unfold div?; rw [if_neg hr]
  have hiv : 1000000 / (f.b2 * 256 + f.b1) ≠ 0 := by
    have hle : f.b2 * 256 + f.b1 ≤ 65535 := by omega
    have h15 : 15 ≤ 1000000 / (f.b2 * 256 + f.b1) := by
      rw [Nat.le_div_iff_mul_le (by omega)]
      omega
    omega
  have hd2 : div? 1000000 (1000000 / (f.b2 * 256 + f.b1)) =
      some (1000000 / (1000000 / (f.b2 * 256 + f.b1))) := by
    unfold div?; rw [if_neg hiv]
  unfold processFrame dispatch
  rw [if_pos hacc, if_pos h0, hd1]
  dsimp only
  rw [hd2]
  rfl

/-- Integer division round-trip: when `k * k ≤ n`, dividing `n` by
`n / k` recovers `k` exactly. -/
theorem div_div_round_trip {n k : Nat} (hk : 0 < k) (hkk : k * k ≤ n) :
    n / (n / k) = k := by
  have hkn : k ≤ n := le_trans (Nat.le_mul_of_pos_left k hk) hkk
  have hkq : k ≤ n / k := (Nat.le_div_iff_mul_le hk).mpr hkk
  have hq : 0 < n / k := lt_of_lt_of_le hk hkq
  have h1 : k ≤ n / (n / k) := by
    rw [Nat.le_div_iff_mul_le hq]
    calc k * (n / k) = n / k * k := Nat.mul_comm _ _
    _ ≤ n := Nat.div_mul_le_self n k
  have h2 : n / (n / k) < k + 1 := by
    rw [Nat.div_lt_iff_lt_mul hq]
    have hmod := Nat.div_add_mod n k
    have hmlt : n % k < k := Nat.mod_lt _ hk
    calc n = k * (n / k) + n % k := (Nat.div_add_mod n k).symm
    _ < k * (n / k) + k := by omega
    _ ≤ k * (n / k) + n / k := by omega
    _ = (k + 1) * (n / k) := by ring
  omega

/-- C2: a 16-byte frame whose opcode is not in the allow-list or whose
byte 15 differs from the sum of bytes 0..14 mod 256 produces no
response, leaves every piece of mutable state unchanged (the state
returned is the input state itself), and the drain loop continues with
the remaining buffered frames. -/
theorem c2_invalid_frame_dropped (s : LDATState) (f : Frame) (rest : List Frame)
    (h : f.b0 ∉ allowed_commands ∨ valid_checksum f = false) :
    processFrame s f = some (s, none) ∧
    check_for_commands s (f :: rest) = check_for_commands s rest := by
  have hp : processFrame s f = some (s, none) := by
    unfold processFrame
    rw [if_neg]
    rintro ⟨h1, h2⟩
    rcases h with h | h
    · exact h h1
    · simp [h2] at h
  have hstep : check_for_commands s (f :: rest) =
      (processFrame s f).bind fun p =>
        (check_for_commands p.1 rest).map fun q => (q.1, p.2.toList ++ q.2) := rfl
  refine ⟨hp, ?_⟩
  rw [hstep, hp]
  cases hq : check_for_commands s rest <;> simp [hq]

theorem c2_invalid_frame_dropped_witness :
    processFrame exState frameBadOpcode = some (exState, none) ∧
    check_for_commands exState [frameBadOpcode] = check_for_commands exState [] :=
  c2_invalid_frame_dropped exState frameBadOpcode [] (Or.inl (by decide))

/-- C9: the well-formed SET_POLL_RATE frame whose rate bytes are both
zero passes the allow-list and the checksum check, and its dispatch
reaches `set_rate` with rate 0, whose unguarded `1000000 / rate`
division takes the error branch of the total embedding (`none`): the
protocol never enforces rate > 0. -/
theorem c9_set_poll_rate_zero_reaches_division (s : LDATState) :
    frameRate0.b0 ∈ allowed_commands ∧ valid_checksum frameRate0 = true ∧
    set_rate s (frameRate0.b2 * 256 + frameRate0.b1) = none ∧
    processFrame s frameRate0 = none :=
  ⟨by decide, by decide, rfl, rfl⟩

/-- C6 counterexample: the Button constructor leaves `current_state`
uninitialized; when that indeterminate bit is true, the first
`state_changed` after construction is true, not false, so the claimed
sequence false, false, true, false, true does not hold of the
constructed state unconditionally. -/
theorem c6_counterexample :
    (let s1 := Button.measure (Button.init true) false
     let s2 := Button.measure s1 false
     let s3 := Button.measure s2 true
     let s4 := Button.measure s3 true
     let s5 := Button.measure s4 false
     [s1.state_changed, s2.state_changed, s3.state_changed,
      s4.state_changed, s5.state_changed]) =
      [true, false, true, false, true] ∧
    [true, false, true, false, true] ≠ [false, false, true, false, true] := by
  exact ⟨rfl, by decide⟩

/-- C6 (amended): measuring the active-low physical sequence high,
high, low, low, high from the constructed Button state yields
`state_changed` = c0, false, true, false, true, where c0 is the
uninitialized `current_state` bit the constructor never sets; the first
reading is false exactly when that indeterminate bit reads false, and
the remaining four are as the claim states regardless. -/
theorem c6_button_edge_sequence (c0 : Bool) :
    (let s1 := Button.measure (Button.init c0) false
     let s2 := Button.measure s1 false
     let s3 := Button.measure s2 true
     let s4 := Button.measure s3 true
     let s5 := Button.measure s4 false
     [s1.state_changed, s2.state_changed, s3.state_changed,
      s4.state_changed, s5.state_changed]) =
      [c0, false, true, false, true] := by
  cases c0 <;> rfl

/-- C10: during a tick whose override state is not NOOVERRIDE,
`Button::measure` is not called: the stored button state is unchanged,
the whole tick result is independent of the physical button level, and
the first post-override measurement overwrites `current_state` so the
pulse-time level is never observed. -/
theorem c10_button_frozen_during_override (s : LDATState) (raw : Nat)
    (low1 low2 lowNext : Bool) (now : Nat)
    (h : s.trigger_override ≠ .NOOVERRIDE) :
    (update s raw low1 now).1.button = s.button ∧
    update s raw low1 now = update s raw low2 now ∧
    Button.measure ((update s raw low1 now).1.button) lowNext =
      { last_state := s.button.current_state, current_state := lowNext } := by
  obtain ⟨btn, br, ts, iv, tht, cnt, bia, tov, mo, am, ab, th⟩ := s
  cases tov with
  | NOOVERRIDE => exact absurd rfl h
  | RELEASE => exact ⟨rfl, rfl, rfl⟩
  | PRESS =>
    refine ⟨?_, ?_, ?_⟩ <;>
      dsimp only [update, update_trigger_override] <;> (repeat' split) <;> rfl
  | OVERRIDE_IN_PROGRESS =>
    refine ⟨?_, ?_, ?_⟩ <;>
      dsimp only [update, update_trigger_override] <;> (repeat' split) <;> rfl

theorem c10_button_frozen_during_override_witness :
    (update exStateSummary 0 true 7).1.button = exStateSummary.button ∧
    update exStateSummary 0 true 7 = update exStateSummary 0 false 7 ∧
    Button.measure ((update exStateSummary 0 true 7).1.button) true =
      { last_state := exStateSummary.button.current_state, current_state := true } :=
  c10_button_frozen_during_override exStateSummary 0 true false true 7 (by decide)

/-- C7: every response frame written back for an accepted command
carries the original opcode in byte 0 and the sum of its own bytes
0..14 mod 256 in byte 15; the MANUAL_TRIGGER response keeps the request
payload in bytes 1..14. -/
theorem c7_response_framing (s : LDATState) (f : Frame) (s' : LDATState) (r : Frame)
    (hacc : f.b0 ∈ allowed_commands ∧ valid_checksum f = true)
    (h : processFrame s f = some (s', some r)) :
    r.b0 = f.b0 ∧ r.b15 = calc_checksum15 r ∧
    (f.b0 = MANUAL_TRIGGER →
      r.b1 = f.b1 ∧ r.b2 = f.b2 ∧ r.b3 = f.b3 ∧ r.b4 = f.b4 ∧ r.b5 = f.b5 ∧
      r.b6 = f.b6 ∧ r.b7 = f.b7 ∧ r.b8 = f.b8 ∧ r.b9 = f.b9 ∧ r.b10 = f.b10 ∧
      r.b11 = f.b11 ∧ r.b12 = f.b12 ∧ r.b13 = f.b13 ∧ r.b14 = f.b14) := by
  unfold processFrame at h
  rw [if_pos hacc] at h
  cases hd : dispatch s f with
  | none => rw [hd] at h; cases h
  | some p =>
    obtain ⟨ps, pg⟩ := p
    rw [hd] at h
    simp only [Option.map_some', Option.some.injEq, Prod.mk.injEq] at h
    obtain ⟨hs, hr⟩ := h
    subst hr
    obtain ⟨hb0, hman⟩ := dispatch_some_frame hd
    refine ⟨hb0, rfl, fun hm => ?_⟩
    have hgf : pg = f := hman hm
    subst hgf
    exact ⟨rfl, rfl, rfl, rfl, rfl, rfl, rfl, rfl, rfl, rfl, rfl, rfl, rfl, rfl⟩

theorem c7_response_framing_witness :
    frameManual.b0 ∈ allowed_commands ∧ valid_checksum frameManual = true ∧
    ((frameManual.b0 = 0x1F) ∧
      processFrame exState frameManual =
        some ({ exState with trigger_override := .PRESS,
                             trigger_override_count := 100 }, some frameManual)) ∧
    (frameManual.b0 = frameManual.b0 ∧
     frameManual.b15 = calc_checksum15 frameManual) := by
  refine ⟨by decide, by decide, ⟨by decide, by decide⟩, ?_⟩
  have h := c7_response_framing exState frameManual
    { exState with trigger_override := .PRESS, trigger_override_count := 100 }
    frameManual ⟨by decide, by decide⟩ (by decide)
  exact ⟨h.1 ▸ rfl, h.2.1⟩

/-- C8: in the summary-report step, when a trigger timestamp is pending
and the tick did not just record a new button press, a brightness
strictly above this tick's computed threshold emits exactly one summary
report carrying `now - trigger_high_timestamp` and that threshold and
clears the timestamp; otherwise no report is emitted and the timestamp
is unchanged (only the threshold history advances). -/
theorem c8_summary_report (s : LDATState)
    (h1 : s.trigger_high_timestamp ≠ 0)
    (h2 : ¬ (s.trigger_override = .NOOVERRIDE ∧ s.button.state_changed = true ∧
             s.button.get_state = trigger_on_press)) :
    ((calc_threshold s.thr s.threshold s.brightness).2 < s.brightness →
      report_summary s =
        ({ s with thr := (calc_threshold s.thr s.threshold s.brightness).1,
                  trigger_high_timestamp := 0 },
         some { latency := s.timestamp - s.trigger_high_timestamp,
                threshold_used := (calc_threshold s.thr s.threshold s.brightness).2 })) ∧
    (¬ (calc_threshold s.thr s.threshold s.brightness).2 < s.brightness →
      report_summary s =
        ({ s with thr := (calc_threshold s.thr s.threshold s.brightness).1 }, none)) := by
  obtain ⟨btn, br, ts, iv, tht, cnt, bia, tov, mo, am, ab, th⟩ := s
  constructor
  · intro hb
    dsimp only [report_summary]
    split_ifs with hA hB
    · exact absurd hA h2
    · rfl
    · exact absurd ⟨h1, hb⟩ hB
  · intro hb
    dsimp only [report_summary]
    split_ifs with hA hB
    · exact absurd hA h2
    · exact absurd hB.2 hb
    · rfl

theorem c8_summary_report_witness :
    report_summary exStateSummary =
      ({ exStateSummary with
           thr := (calc_threshold exStateSummary.thr exStateSummary.threshold
                     exStateSummary.brightness).1,
           trigger_high_timestamp := 0 },
       some { latency := exStateSummary.timestamp -
                exStateSummary.trigger_high_timestamp,
              threshold_used := (calc_threshold exStateSummary.thr
                exStateSummary.threshold exStateSummary.brightness).2 }) :=
  (c8_summary_report exStateSummary (by decide) (by decide)).1 (by decide)

/-- C1 counterexample: an accepted SET_REPORT_MODE frame with byte 1 =
4 (> 3) leaves the mode unchanged but its response's byte 1 echoes the
request's byte 1 (4), not the current mode (0): the dispatch does not
fall through to the GET handler in this case. -/
theorem c1_counterexample :
    processFrame exState frameMode4 = some (exState, some frameMode4) ∧
    frameMode4.b1 ≠ exState.mode := by
  constructor
  · rfl
  · decide

/-- C1 (amended): for every accepted SET frame whose payload passes its
range guard (SET_POLL_RATE with nonzero rate, SET_THRESHOLD always,
SET_REPORT_MODE with byte1 ≤ 3, SET_ACTION with byte1 ≤ 2) the dispatch
falls through into the corresponding GET handler and the response
payload equals the configuration value stored after the mutation; but
an accepted SET_REPORT_MODE frame with byte1 > 3 (and likewise
SET_ACTION with byte1 > 2) breaks out before the GET handler, leaving
the state unchanged and echoing the request payload (only byte 15 is
recomputed, to the value it already had). -/
theorem c1_set_falls_through_to_get (s : LDATState) (f : Frame)
    (hacc : f.b0 ∈ allowed_commands ∧ valid_checksum f = true) :
    (f.b0 = SET_POLL_RATE → f.b1 < 256 → f.b2 < 256 → f.b2 * 256 + f.b1 ≠ 0 →
      ∃ s' r, processFrame s f = some (s', some r) ∧
        s'.interval_us = 1000000 / (f.b2 * 256 + f.b1) ∧
        r.b1 = 1000000 / s'.interval_us % 256 ∧
        r.b2 = 1000000 / s'.interval_us / 256 % 256) ∧
    (f.b0 = SET_REPORT_MODE → f.b1 ≤ 3 →
      ∃ s' r, processFrame s f = some (s', some r) ∧
        s'.mode = f.b1 ∧ r.b1 = s'.mode) ∧
    (f.b0 = SET_REPORT_MODE → f.b1 > 3 →
      processFrame s f = some (s, some { f with b15 := calc_checksum15 f })) ∧
    (f.b0 = SET_THRESHOLD →
      ∃ s' r, processFrame s f = some (s', some r) ∧
        s'.threshold = toInt16 (f.b2 * 256 + f.b1) ∧
        r.b1 = int16Low s'.threshold ∧ r.b2 = int16High s'.threshold) ∧
    (f.b0 = SET_ACTION → f.b1 ≤ 2 →
      ∃ s' r, processFrame s f = some (s', some r) ∧
        s'.action_mode = f.b1 ∧ s'.action_button = f.b2 ∧
        r.b1 = s'.action_mode ∧ r.b2 = s'.action_button) ∧
    (f.b0 = SET_ACTION → f.b1 > 2 →
      processFrame s f = some (s, some { f with b15 := calc_checksum15 f })) := by
  refine ⟨?_, ?_, ?_, ?_, ?_, ?_⟩
  · intro h0 hb1 hb2 hr
    exact ⟨_, _, processFrame_set_poll_rate s f hacc h0 hb1 hb2 hr, rfl, rfl, rfl⟩
  · intro h0 hle
    have hP : processFrame s f =
        some ({ s with mode := f.b1 },
          some { f with
            b1 := f.b1
            b15 := calc_checksum15 { f with b1 := f.b1 } }) := by
      unfold processFrame dispatch
      rw [if_pos hacc,
        if_neg (show ¬f.b0 = SET_POLL_RATE by rw [h0]; decide),
        if_neg (show ¬f.b0 = GET_POLL_RATE by rw [h0]; decide),
        if_pos h0, if_neg (show ¬f.b1 > 3 by omega)]
      rfl
    exact ⟨_, _, hP, rfl, rfl⟩
  · intro h0 hgt
    unfold processFrame dispatch
    rw [if_pos hacc,
      if_neg (show ¬f.b0 = SET_POLL_RATE by rw [h0]; decide),
      if_neg (show ¬f.b0 = GET_POLL_RATE by rw [h0]; decide),
      if_pos h0, if_pos hgt]
    rfl
  · intro h0
    have hP : processFrame s f =
        some ({ s with threshold := toInt16 (f.b2 * 256 + f.b1) },
          some { f with
            b1 := int16Low (toInt16 (f.b2 * 256 + f.b1)),
            b2 := int16High (toInt16 (f.b2 * 256 + f.b1)),
            b15 := calc_checksum15
              { f with
                b1 := int16Low (toInt16 (f.b2 * 256 + f.b1)),
                b2 := int16High (toInt16 (f.b2 * 256 + f.b1)) } }) := by
      unfold processFrame dispatch
      rw [if_pos hacc,
        if_neg (show ¬f.b0 = SET_POLL_RATE by rw [h0]; decide),
        if_neg (show ¬f.b0 = GET_POLL_RATE by rw [h0]; decide),
        if_neg (show ¬f.b0 = SET_REPORT_MODE by rw [h0]; decide),
        if_neg (show ¬f.b0 = GET_REPORT_MODE by rw [h0]; decide),
        if_pos h0]
      rfl
    exact ⟨_, _, hP, rfl, rfl, rfl⟩
  · intro h0 hle
    have hP : processFrame s f =
        some ({ s with action_mode := f.b1, action_button := f.b2 },
          some { f with
            b1 := f.b1
            b2 := f.b2
            b15 := calc_checksum15 { f with b1 := f.b1, b2 := f.b2 } }) := by
      unfold processFrame dispatch
      rw [if_pos hacc,
        if_neg (show ¬f.b0 = SET_POLL_RATE by rw [h0]; decide),
        if_neg (show ¬f.b0 = GET_POLL_RATE by rw [h0]; decide),
        if_neg (show ¬f.b0 = SET_REPORT_MODE by rw [h0]; decide),
        if_neg (show ¬f.b0 = GET_REPORT_MODE by rw [h0]; decide),
        if_neg (show ¬f.b0 = SET_THRESHOLD by rw [h0]; decide),
        if_neg (show ¬f.b0 = GET_THRESHOLD by rw [h0]; decide),
        if_pos h0, if_neg (show ¬f.b1 > 2 by omega)]
      rfl
    exact ⟨_, _, hP, rfl, rfl, rfl, rfl⟩
  · intro h0 hgt
    unfold processFrame dispatch
    rw [if_pos hacc,
      if_neg (show ¬f.b0 = SET_POLL_RATE by rw [h0]; decide),
      if_neg (show ¬f.b0 = GET_POLL_RATE by rw [h0]; decide),
      if_neg (show ¬f.b0 = SET_REPORT_MODE by rw [h0]; decide),
      if_neg (show ¬f.b0 = GET_REPORT_MODE by rw [h0]; decide),
      if_neg (show ¬f.b0 = SET_THRESHOLD by rw [h0]; decide),
      if_neg (show ¬f.b0 = GET_THRESHOLD by rw [h0]; decide),
      if_pos h0, if_pos hgt]
    rfl

theorem c1_set_falls_through_to_get_witness :
    ∃ s' r, processFrame exState frameMode2 = some (s', some r) ∧
      s'.mode = frameMode2.b1 ∧ r.b1 = s'.mode :=
  (c1_set_falls_through_to_get exState frameMode2 ⟨by decide, by decide⟩).2.1
    rfl (by decide)

/-- C5 counterexample: an accepted SET_POLL_RATE frame requesting rate
1500 stores interval 666 and the fall-through GET response encodes
1000000 / 666 = 1501, not the requested 1500: the round-trip is not the
identity for every rate. -/
theorem c5_counterexample :
    frameRate1500.b2 * 256 + frameRate1500.b1 = 1500 ∧
    (processFrame exState frameRate1500).map
        (fun p => p.2.map fun r => r.b2 * 256 + r.b1) = some (some 1501) ∧
    (1501 : Nat) ≠ 1500 := by
  refine ⟨by decide, rfl, by decide⟩

/-- C5 (amended): an accepted SET_POLL_RATE frame with nonzero rate
stores `interval_us = 1000000 / rate`, and the fall-through response
encodes `1000000 / interval_us = 1000000 / (1000000 / rate)` (low 16
bits) in bytes 1-2; this equals the requested rate whenever
rate ≤ 1000, but not in general (e.g. 1500 answers 1501). -/
theorem c5_set_poll_rate_roundtrip (s : LDATState) (f : Frame)
    (hacc : f.b0 ∈ allowed_commands ∧ valid_checksum f = true)
    (h0 : f.b0 = SET_POLL_RATE) (hb1 : f.b1 < 256) (hb2 : f.b2 < 256)
    (hr : f.b2 * 256 + f.b1 ≠ 0) :
    ∃ s' r, processFrame s f = some (s', some r) ∧
      s'.interval_us = 1000000 / (f.b2 * 256 + f.b1) ∧
      r.b2 * 256 + r.b1 = 1000000 / (1000000 / (f.b2 * 256 + f.b1)) % 65536 ∧
      (f.b2 * 256 + f.b1 ≤ 1000 → r.b2 * 256 + r.b1 = f.b2 * 256 + f.b1) := by
  refine ⟨_, _, processFrame_set_poll_rate s f hacc h0 hb1 hb2 hr, rfl, ?_, ?_⟩
  · show (1000000 / (1000000 / (f.b2 * 256 + f.b1)) / 256 % 256) * 256 +
        1000000 / (1000000 / (f.b2 * 256 + f.b1)) % 256 =
        1000000 / (1000000 / (f.b2 * 256 + f.b1)) % 65536
    generalize 1000000 / (1000000 / (f.b2 * 256 + f.b1)) = q
    omega
  · intro hle
    have hrt : 1000000 / (1000000 / (f.b2 * 256 + f.b1)) = f.b2 * 256 + f.b1 :=
      div_div_round_trip (Nat.pos_of_ne_zero hr)
        (le_trans (Nat.mul_le_mul hle hle) (by norm_num))
    show (1000000 / (1000000 / (f.b2 * 256 + f.b1)) / 256 % 256) * 256 +
        1000000 / (1000000 / (f.b2 * 256 + f.b1)) % 256 = f.b2 * 256 + f.b1
    rw [hrt]
    omega

theorem c5_set_poll_rate_roundtrip_witness :
    ∃ s' r, processFrame exState frameRate1000 = some (s', some r) ∧
      s'.interval_us = 1000000 / (frameRate1000.b2 * 256 + frameRate1000.b1) ∧
      r.b2 * 256 + r.b1 =
        1000000 / (1000000 / (frameRate1000.b2 * 256 + frameRate1000.b1)) % 65536 ∧
      (frameRate1000.b2 * 256 + frameRate1000.b1 ≤ 1000 →
        r.b2 * 256 + r.b1 = frameRate1000.b2 * 256 + frameRate1000.b1) :=
  c5_set_poll_rate_roundtrip exState frameRate1000 ⟨by decide, by decide⟩
    rfl (by decide) (by decide) (by decide)

/-- A tick that starts in PRESS with a nonzero countdown issues exactly
the press call, advances to OVERRIDE_IN_PROGRESS and decrements the
countdown. -/
theorem update_press (s : LDATState) (raw : Nat) (bl : Bool) (now : Nat)
    (h : s.trigger_override = .PRESS) (hc : s.trigger_override_count ≠ 0) :
    (update s raw bl now).2 = [ActEv.press] ∧
    (update s raw bl now).1.trigger_override = .OVERRIDE_IN_PROGRESS ∧
    (update s raw bl now).1.trigger_override_count =
      (s.trigger_override_count + 65535) % 65536 := by
  obtain ⟨btn, br, ts, iv, tht, cnt, bia, tov, mo, am, ab, th⟩ := s
  cases tov with
  | PRESS =>
    refine ⟨rfl, ?_, ?_⟩ <;>
      dsimp only [update, update_trigger_override] <;>
      (repeat' split) <;> simp_all
  | RELEASE => simp at h
  | OVERRIDE_IN_PROGRESS => simp at h
  | NOOVERRIDE => simp at h

/-- A tick that starts in OVERRIDE_IN_PROGRESS with countdown zero
issues no call and advances to RELEASE, keeping the countdown. -/
theorem update_oip_zero (s : LDATState) (raw : Nat) (bl : Bool) (now : Nat)
    (h : s.trigger_override = .OVERRIDE_IN_PROGRESS)
    (hc : s.trigger_override_count = 0) :
    (update s raw bl now).2 = [] ∧
    (update s raw bl now).1.trigger_override = .RELEASE ∧
    (update s raw bl now).1.trigger_override_count = 0 := by
  obtain ⟨btn, br, ts, iv, tht, cnt, bia, tov, mo, am, ab, th⟩ := s
  cases tov with
  | OVERRIDE_IN_PROGRESS =>
    refine ⟨rfl, ?_, ?_⟩ <;>
      dsimp only [update, update_trigger_override] <;>
      (repeat' split) <;> simp_all
  | RELEASE => simp at h
  | PRESS => simp at h
  | NOOVERRIDE => simp at h

/-- A tick that starts in OVERRIDE_IN_PROGRESS with nonzero countdown
issues no call, stays in OVERRIDE_IN_PROGRESS and decrements. -/
theorem update_oip_succ (s : LDATState) (raw : Nat) (bl : Bool) (now : Nat)
    (h : s.trigger_override = .OVERRIDE_IN_PROGRESS)
    (hc : s.trigger_override_count ≠ 0) :
    (update s raw bl now).2 = [] ∧
    (update s raw bl now).1.trigger_override = .OVERRIDE_IN_PROGRESS ∧
    (update s raw bl now).1.trigger_override_count =
      (s.trigger_override_count + 65535) % 65536 := by
  obtain ⟨btn, br, ts, iv, tht, cnt, bia, tov, mo, am, ab, th⟩ := s
  cases tov with
  | OVERRIDE_IN_PROGRESS =>
    refine ⟨rfl, ?_, ?_⟩ <;>
      dsimp only [update, update_trigger_override] <;>
      (repeat' split) <;> simp_all
  | RELEASE => simp at h
  | PRESS => simp at h
  | NOOVERRIDE => simp at h

/-- A tick that starts in RELEASE issues exactly the release call and
returns to NOOVERRIDE. -/
theorem update_release (s : LDATState) (raw : Nat) (bl : Bool) (now : Nat)
    (h : s.trigger_override = .RELEASE) :
    (update s raw bl now).2 = [ActEv.release] ∧
    (update s raw bl now).1.trigger_override = .NOOVERRIDE := by
  obtain ⟨btn, br, ts, iv, tht, cnt, bia, tov, mo, am, ab, th⟩ := s
  cases tov with
  | RELEASE =>
    refine ⟨rfl, ?_⟩
    dsimp only [update, update_trigger_override]
    (repeat' split) <;>
      first
        | rfl
        | (exfalso; simp_all)
  | OVERRIDE_IN_PROGRESS => simp at h
  | PRESS => simp at h
  | NOOVERRIDE => simp at h

/-- A run that starts in OVERRIDE_IN_PROGRESS with countdown `c`
(c < 2^16) spends exactly `c + 1` ticks there issuing no calls, then
one RELEASE tick issuing the release call, and ends in NOOVERRIDE. -/
theorem oip_run (c : Nat) : ∀ (ts : LDATState) (ins : List (Nat × Bool × Nat)),
    ts.trigger_override = .OVERRIDE_IN_PROGRESS →
    ts.trigger_override_count = c → c < 65536 → ins.length = c + 2 →
    (tickTrace ts ins).1 =
      List.replicate (c + 1)
        (TriggerOverride.OVERRIDE_IN_PROGRESS, ([] : List ActEv)) ++
        [(TriggerOverride.RELEASE, [ActEv.release])] ∧
    (tickTrace ts ins).2.trigger_override = .NOOVERRIDE := by
  induction c with
  | zero =>
    intro ts ins ho hc hlt hlen
    rcases ins with _ | ⟨a, _ | ⟨b, _ | ⟨x, tl⟩⟩⟩ <;> simp at hlen
    obtain ⟨e1, e2, e3⟩ := update_oip_zero ts a.1 a.2.1 a.2.2 ho hc
    obtain ⟨r1, r2⟩ := update_release (update ts a.1 a.2.1 a.2.2).1 b.1 b.2.1 b.2.2 e2
    constructor
    · simp only [tickTrace]
      rw [ho, e1, e2, r1]
      rfl
    · simp only [tickTrace]
      exact r2
  | succ c ih =>
    intro ts ins ho hc hlt hlen
    rcases ins with _ | ⟨a, rest⟩
    · simp at hlen
    have hlen2 : rest.length = c + 2 := by simpa using hlen
    obtain ⟨e1, e2, e3⟩ := update_oip_succ ts a.1 a.2.1 a.2.2 ho (by omega)
    have hcnt : (update ts a.1 a.2.1 a.2.2).1.trigger_override_count = c := by
      rw [e3, hc]; omega
    obtain ⟨ihtr, ihfin⟩ :=
      ih (update ts a.1 a.2.1 a.2.2).1 rest e2 hcnt (by omega) hlen2
    constructor
    · simp only [tickTrace]
      rw [ho, e1, ihtr]
      rfl
    · simp only [tickTrace]
      exact ihfin

/-- C3: from any NOOVERRIDE state polled every 500 µs, a MANUAL_TRIGGER
command makes the next ticks issue exactly one press call, then pass
through exactly 100 = 50000/500 OVERRIDE_IN_PROGRESS ticks issuing no
Action calls, then issue exactly one release call, after which the
machine is back in NOOVERRIDE. -/
theorem c3_manual_trigger_pulse (s : LDATState) (ins : List (Nat × Bool × Nat))
    (_h0 : s.trigger_override = .NOOVERRIDE)
    (hiv : s.interval_us = 500)
    (hlen : ins.length = 102) :
    ∃ s1, manual_trigger s = some s1 ∧
      (tickTrace s1 ins).1 =
        (TriggerOverride.PRESS, [ActEv.press]) ::
          (List.replicate 100
            (TriggerOverride.OVERRIDE_IN_PROGRESS, ([] : List ActEv)) ++
            [(TriggerOverride.RELEASE, [ActEv.release])]) ∧
      (tickTrace s1 ins).2.trigger_override = .NOOVERRIDE := by
  have hm : manual_trigger s =
      some { s with trigger_override := .PRESS, trigger_override_count := 100 } := by
    unfold manual_trigger div?
    rw [hiv]
    rfl
  rcases ins with _ | ⟨a, rest⟩
  · simp at hlen
  have hlen2 : rest.length = 101 := by simpa using hlen
  obtain ⟨e1, e2, e3⟩ := update_press
    { s with trigger_override := TriggerOverride.PRESS, trigger_override_count := 100 }
    a.1 a.2.1 a.2.2 rfl (by show (100 : Nat) ≠ 0; decide)
  have hcnt : (update
      { s with trigger_override := TriggerOverride.PRESS, trigger_override_count := 100 }
      a.1 a.2.1 a.2.2).1.trigger_override_count = 99 := by
    rw [e3]; norm_num
  obtain ⟨otr, ofin⟩ := oip_run 99
    (update
      { s with trigger_override := TriggerOverride.PRESS, trigger_override_count := 100 }
      a.1 a.2.1 a.2.2).1
    rest e2 hcnt (by omega) (by omega)
  refine ⟨_, hm, ?_, ?_⟩
  · simp only [tickTrace]
    rw [e1, otr]
  · simp only [tickTrace]
    exact ofin

theorem c3_manual_trigger_pulse_witness :
    ∃ s1, manual_trigger exState = some s1 ∧
      (tickTrace s1 (List.replicate 102 (0, false, 0))).1 =
        (TriggerOverride.PRESS, [ActEv.press]) ::
          (List.replicate 100
            (TriggerOverride.OVERRIDE_IN_PROGRESS, ([] : List ActEv)) ++
            [(TriggerOverride.RELEASE, [ActEv.release])]) ∧
      (tickTrace s1 (List.replicate 102 (0, false, 0))).2.trigger_override =
        .NOOVERRIDE :=
  c3_manual_trigger_pulse exState (List.replicate 102 (0, false, 0))
    rfl rfl (by simp)

theorem thrWrite_length (ts : ThresholdState) (v : Nat) :
    (thrWrite ts v).history.length = ts.history.length := by
  simp [thrWrite]

theorem feedConst_count (ts : ThresholdState) (v : Nat) :
    ∀ n, (feedConst ts v n).count = ts.count + n := by
  intro n
  induction n with
  | zero => rfl
  | succ n ih =>
    show (thrWrite (feedConst ts v n) v).count = ts.count + (n + 1)
    rw [thrWrite, ih]
    rfl

theorem feedConst_length (ts : ThresholdState) (v : Nat) :
    ∀ n, (feedConst ts v n).history.length = ts.history.length := by
  intro n
  induction n with
  | zero => rfl
  | succ n ih =>
    show (thrWrite (feedConst ts v n) v).history.length = ts.history.length
    rw [thrWrite_length, ih]

/-- Once some write of the constant-feed run has hit slot `i`, that
slot holds `v`. -/
theorem feedConst_get_hit (ts : ThresholdState) (v : Nat)
    (hlen : ts.history.length = 150) :
    ∀ n i, i < 150 → (∃ m, m < n ∧ (ts.count + m) % 150 = i) →
      (feedConst ts v n).history[i]? = some v := by
  intro n
  induction n with
  | zero =>
    rintro i hi ⟨m, hm, hmi⟩
    omega
  | succ n ih =>
    rintro i hi ⟨m, hm, hmi⟩
    have hlen2 : (feedConst ts v n).history.length = 150 := by
      rw [feedConst_length]; exact hlen
    have hcnt : (feedConst ts v n).count % HISTORY_SIZE = (ts.count + n) % 150 := by
      rw [feedConst_count]; rfl
    show (thrWrite (feedConst ts v n) v).history[i]? = some v
    rw [thrWrite, hcnt]
    by_cases hcase : (ts.count + n) % 150 = i
    · rw [List.getElem?_set, if_pos hcase, if_pos (by omega)]
    · rw [List.getElem?_set, if_neg hcase]
      refine ih i hi ⟨m, ?_, hmi⟩
      omega

/-- After at least 150 constant feeds the whole history equals the
constant. -/
theorem feedConst_all (ts : ThresholdState) (v : Nat)
    (hlen : ts.history.length = 150) (n : Nat) (hn : 150 ≤ n) :
    (feedConst ts v n).history = List.replicate 150 v := by
  apply List.ext_getElem?
  intro i
  by_cases hi : i < 150
  · rw [feedConst_get_hit ts v hlen n i hi
      ⟨(i + 150 - ts.count % 150) % 150, by omega, by omega⟩]
    rw [List.getElem?_replicate, if_pos hi]
  · rw [List.getElem?_eq_none (by rw [feedConst_length, hlen]; omega),
      List.getElem?_eq_none (by simp; omega)]

/-- C4: each `calc_threshold` call returns the truncating average of
the 150 slots as they were before the call, plus the bias, and only
then overwrites the oldest slot and bumps the counter; consequently
after at least 150 constant feeds of `v` every further call returns
exactly `v + bias` (whenever that value fits in a `uint16_t`). -/
theorem c4_threshold_average (ts : ThresholdState) (bias : Int) (v : Nat)
    (hlen : ts.history.length = HISTORY_SIZE) :
    calc_threshold ts bias v =
      ({ history := ts.history.set (ts.count % HISTORY_SIZE) v,
         count := ts.count + 1 },
       ((((histSum ts.history / HISTORY_SIZE : Nat) : Int) + bias) % 65536).toNat) ∧
    (∀ n, HISTORY_SIZE ≤ n → v < 65536 →
      0 ≤ (v : Int) + bias → (v : Int) + bias < 65536 →
      (calc_threshold (feedConst ts v n) bias v).2 = ((v : Int) + bias).toNat) := by
  refine ⟨rfl, ?_⟩
  intro n hn hv hlo hhi
  have hall : (feedConst ts v n).history = List.replicate 150 v :=
    feedConst_all ts v hlen n hn
  show ((((histSum (feedConst ts v n).history / HISTORY_SIZE : Nat) : Int) + bias)
      % 65536).toNat = ((v : Int) + bias).toNat
  rw [hall]
  have hsum : histSum (List.replicate 150 v) = 150 * v := by
    unfold histSum
    rw [List.sum_const_nat]
    exact Nat.mod_eq_of_lt (by omega)
  rw [hsum]
  have hdiv : (150 : Nat) * v / HISTORY_SIZE = v := by
    show (150 : Nat) * v / 150 = v
    omega
  rw [hdiv, Int.emod_eq_of_lt hlo hhi]

theorem c4_threshold_average_witness :
    (calc_threshold (feedConst exState.thr 200 150) 0 200).2 =
      ((200 : Int) + 0).toNat :=
  (c4_threshold_average exState.thr 0 200 rfl).2 150 (le_refl 150)
    (by norm_num) (by norm_num) (by norm_num)

end FakeLDAT
